import Mathlib

/-!
Verification of the deliberation orchestrator of WatAIOliver
(`src/machine_learning/ai_agents/`): the retrieval-with-reframing stage,
the draft/critique/decision debate loop, and the answer-synthesis stage.

Each definition below is a shallow embedding of one Python function of the
repository; the file and symbol it embeds is named in its doc comment.
External-service calls (LLM chains, the RAG backend) are modelled as
explicit inputs: a deterministic oracle argument stands for the text or
score the service returned, and an `Option`/outcome argument distinguishes
a successful call from a raised exception.  Floating-point scores are
modelled as rationals.
-/

namespace Oliver

/-! ## Data model

The workflow state fields are those read and written by the agents
(`WorkflowState` of `ai_agents/state.py`, as used by the agent code). -/

/-- One chain-of-thought step (`ChainOfThought` of `ai_agents/state.py`,
as built in `strategist_agent.py`). -/
structure ChainOfThought where
  step : Nat
  thought : String
  confidence : ℚ
  deriving Repr, DecidableEq

/-- A draft produced by the Strategist (`DraftContent`,
built at `strategist_agent.py:257`). -/
structure DraftContent where
  draft_id : String
  content : String
  chain_of_thought : List ChainOfThought
  timestamp : String
  deriving Repr, DecidableEq

/-- One issue record produced by the Critic (`Critique`, built at
`critic_agent.py:304`).  The `severity` field is optional because the
Moderator reads it with `critique.get("severity", "medium")`. -/
structure Critique where
  type : String
  severity : Option String
  description : String
  step_ref : Option Nat
  claim : Option String
  deriving Repr, DecidableEq

/-- One retrieved passage (`RetrievalResult`, built at
`retrieve_agent.py:268`).  `text` is the alternative key that
`strategist_agent.py:332` falls back to. -/
structure RetrievalResult where
  content : String
  text : String
  score : ℚ
  source : String
  deriving Repr, DecidableEq

/-- Workflow state: the aggregate the LangGraph nodes read and mutate. -/
structure WorkflowState where
  query : String
  course_id : String
  current_round : Nat
  max_rounds : Nat
  retrieval_results : List RetrievalResult
  retrieval_quality_score : ℚ
  retrieval_strategy : String
  draft : Option DraftContent
  critiques : List Critique
  moderator_decision : Option String
  moderator_feedback : Option String
  convergence_score : ℚ
  error_messages : List String
  workflow_status : String
  deriving Repr, DecidableEq

/-! ## Decision Controller (`langgraph_implementation/agents/moderator_agent.py`) -/

/-- Severity tally (`ModeratorAgent._analyze_severity` result dict). -/
structure SeverityCounts where
  critical : Nat
  high : Nat
  medium : Nat
  low : Nat
  deriving Repr, DecidableEq

/-- `critique.get("severity", "medium")`. -/
def severity_of (c : Critique) : String := c.severity.getD "medium"

/-- Fold step of `ModeratorAgent._analyze_severity`: increment the tally
for the critique's severity when it is one of the four recognized levels,
leave the tally unchanged otherwise. -/
def severity_step (counts : SeverityCounts) (c : Critique) : SeverityCounts :=
  let s := severity_of c
  if s = "critical" then { counts with critical := counts.critical + 1 }
  else if s = "high" then { counts with high := counts.high + 1 }
  else if s = "medium" then { counts with medium := counts.medium + 1 }
  else if s = "low" then { counts with low := counts.low + 1 }
  else counts

/-- `ModeratorAgent._analyze_severity` (moderator_agent.py:202). -/
def analyze_severity (critiques : List Critique) : SeverityCounts :=
  critiques.foldl severity_step ⟨0, 0, 0, 0⟩

/-- `self.critical_severity_threshold = 2` (moderator_agent.py:43). -/
def critical_severity_threshold : Nat := 2

/-- `ModeratorAgent._apply_decision_rules` (moderator_agent.py:242-271):
the deterministic override rules applied on top of the model-proposed
decision, first match wins. -/
def apply_decision_rules (decision : String) (severity_counts : SeverityCounts)
    (current_round max_rounds : Nat) : String :=
  -- Rule 1: Force deadlock if at max rounds
  if current_round ≥ max_rounds then "abort_deadlock"
  -- Rule 2: Cannot converge with critical issues
  else if decision = "converged" ∧ 0 < severity_counts.critical then
    (if current_round < max_rounds then "iterate" else "escalate_with_warning")
  -- Rule 3: Escalate if too many critical issues
  else if critical_severity_threshold ≤ severity_counts.critical then "escalate_with_warning"
  -- Rule 4: Force convergence if only low severity issues
  else if severity_counts.critical = 0 ∧ severity_counts.high = 0 ∧ severity_counts.medium ≤ 1
    then "converged"
  else decision

/-- Outcome of the Moderator's proposal step (`decision_chain.arun` plus
`_parse_decision`): either the parsed decision/reasoning/feedback/score,
or an exception raised somewhere in the chain call. -/
inductive ProposalOutcome where
  | ok (decision reasoning feedback : String) (convergence_score : ℚ)
  | failure (msg : String)
  deriving Repr, DecidableEq

/-- `ModeratorAgent.__call__` (moderator_agent.py:107-200).
`detailed_feedback` is the text `_generate_detailed_feedback` returned
(that helper never raises: on an inner failure it returns a fixed fallback
string); an empty string is falsy in the source and keeps the parsed
feedback.  The `except` branch (lines 185-198) appends the error, marks the
workflow failed and records `abort_deadlock` without re-raising. -/
def moderator_call (state : WorkflowState) (proposal : ProposalOutcome)
    (detailed_feedback : String) : WorkflowState :=
  match proposal with
  | .ok decision _reasoning feedback convergence_score =>
    let severity_counts := analyze_severity state.critiques
    let final_decision :=
      apply_decision_rules decision severity_counts state.current_round state.max_rounds
    let feedback :=
      if final_decision = "iterate" ∧ detailed_feedback ≠ "" then detailed_feedback
      else feedback
    { state with
      moderator_decision := some final_decision
      moderator_feedback := if final_decision = "iterate" then some feedback else none
      convergence_score := convergence_score }
  | .failure msg =>
    { state with
      error_messages := state.error_messages ++ ["Moderator agent error: " ++ msg]
      workflow_status := "failed"
      moderator_decision := some "abort_deadlock" }

/-! ## Workflow graph (`workflow.py:_build_workflow` and `_route_from_moderator`) -/

/-- The unconditional edges of the LangGraph workflow
(`workflow.py:63-93`); `none` means the node has no unconditional
successor (END, or the conditional routing from the moderator). -/
def next_node : String → Option String
  | "retrieve" => some "strategist"
  | "strategist" => some "critic"
  | "critic" => some "moderator"
  | "reporter" => some "tutor"
  | _ => none

/-- `MultiAgentWorkflow._route_from_moderator` (workflow.py:95-123). -/
def route_from_moderator (state : WorkflowState) : String :=
  let decision := state.moderator_decision.getD "pending"
  if decision = "iterate" then "strategist"
  else if decision = "converged" ∨ decision = "abort_deadlock" ∨
      decision = "escalate_with_warning" then "reporter"
  else "end"

/-! ## Severity-count lemmas -/

lemma severity_step_critical_mono (counts : SeverityCounts) (c : Critique) :
    counts.critical ≤ (severity_step counts c).critical := by
  simp only [severity_step]
  split
  · simp
  · split
    · simp
    · split
      · simp
      · split <;> simp

lemma foldl_severity_critical_mono (l : List Critique) :
    ∀ acc : SeverityCounts, acc.critical ≤ (l.foldl severity_step acc).critical := by
  induction l with
  | nil => intro acc; simp
  | cons c t ih =>
    intro acc
    calc acc.critical ≤ (severity_step acc c).critical := severity_step_critical_mono acc c
      _ ≤ (t.foldl severity_step (severity_step acc c)).critical := ih _

lemma critical_count_pos (l : List Critique)
    (h : ∃ c ∈ l, severity_of c = "critical") :
    ∀ acc : SeverityCounts, 0 < (l.foldl severity_step acc).critical := by
  induction l with
  | nil => rcases h with ⟨c, hc, _⟩; cases hc
  | cons c t ih =>
    intro acc
    rcases h with ⟨d, hd, hcrit⟩
    rcases List.mem_cons.mp hd with rfl | hdt
    · have hstep : (severity_step acc d).critical = acc.critical + 1 := by
        unfold severity_step
        rw [hcrit]
        simp
      have := foldl_severity_critical_mono t (severity_step acc d)
      simp only [List.foldl_cons]
      omega
    · exact ih ⟨d, hdt, hcrit⟩ _

lemma analyze_severity_critical_pos (critiques : List Critique)
    (h : ∃ c ∈ critiques, severity_of c = "critical") :
    0 < (analyze_severity critiques).critical :=
  critical_count_pos critiques h ⟨0, 0, 0, 0⟩

/-! ## Claim theorems: decision controller -/

/-- Claim C1: for every round of the debate loop, the Decision Controller
never emits a `converged` decision while the current round's issue list
contains at least one issue of severity `critical`, regardless of the
model-proposed decision.  Stated both on the override-rule table
(`_apply_decision_rules`) and on the full moderator node. -/
theorem moderator_never_converges_with_critical_issue
    (proposal reasoning feedback : String) (score : ℚ) (detailed : String)
    (state : WorkflowState) (round maxr : Nat) (critiques : List Critique)
    (h : ∃ c ∈ critiques, severity_of c = "critical") :
    apply_decision_rules proposal (analyze_severity critiques) round maxr ≠ "converged" ∧
    (state.critiques = critiques →
      (moderator_call state (.ok proposal reasoning feedback score) detailed).moderator_decision
        ≠ some "converged") := by
  have hpos := analyze_severity_critical_pos critiques h
  have hmain : apply_decision_rules proposal (analyze_severity critiques) round maxr
      ≠ "converged" := by
    unfold apply_decision_rules
    split
    · decide
    · split
      · split <;> decide
      · split
        · decide
        · split
          · rename_i hzero
            omega
          · rename_i hnotconv _ _
            intro hdec
            exact hnotconv ⟨hdec, hpos⟩
  refine ⟨hmain, ?_⟩
  intro hcrit
  have hmain2 : apply_decision_rules proposal (analyze_severity critiques)
      state.current_round state.max_rounds ≠ "converged" := by
    unfold apply_decision_rules
    split
    · decide
    · split
      · split <;> decide
      · split
        · decide
        · split
          · rename_i hzero
            omega
          · rename_i hnotconv _ _
            intro hdec
            exact hnotconv ⟨hdec, hpos⟩
  simp only [moderator_call, hcrit]
  intro hsome
  exact hmain2 (Option.some.inj hsome)

/-- Witness for C1: a single critical issue, a proposal of `converged`. -/
theorem moderator_never_converges_with_critical_issue_witness :
    (∃ c ∈ [Critique.mk "logic_flaw" (some "critical") "bad step" none none],
        severity_of c = "critical") ∧
    apply_decision_rules "converged"
      (analyze_severity [Critique.mk "logic_flaw" (some "critical") "bad step" none none])
      1 3 ≠ "converged" :=
  ⟨by decide,
    (moderator_never_converges_with_critical_issue "converged" "" "" 0 ""
      ⟨"q", "c", 1, 3, [], 0, "initial", none,
        [Critique.mk "logic_flaw" (some "critical") "bad step" none none],
        none, none, 0, [], "debating"⟩
      1 3 [Critique.mk "logic_flaw" (some "critical") "bad step" none none]
      (by decide)).1⟩

/-! ## Draft Generator (`agents/strategist_agent.py`) -/

/-- Whether `pat` is an initial segment of `s` (character lists). -/
def starts_list (pat s : List Char) : Bool :=
  match pat, s with
  | [], _ => true
  | _ :: _, [] => false
  | p :: ps, c :: cs => (p == c) && starts_list ps cs

/-- Whether `pat` occurs as a contiguous segment of the second list. -/
def contains_list (pat : List Char) : List Char → Bool
  | [] => pat.isEmpty
  | c :: cs => starts_list pat (c :: cs) || contains_list pat cs

/-- Accumulator pass of [py_split]: collect maximal non-whitespace runs. -/
def split_ws_aux : List Char → List Char → List (List Char)
  | [], acc => if acc.isEmpty then [] else [acc.reverse]
  | c :: cs, acc =>
    if c.isWhitespace then
      (if acc.isEmpty then split_ws_aux cs [] else acc.reverse :: split_ws_aux cs [])
    else split_ws_aux cs (c :: acc)

/-- Python `str.split()` with no argument: maximal runs of
non-whitespace characters. -/
def py_split (s : String) : List String := (split_ws_aux s.data []).map String.mk

/-- Python `str.split(sep)` for a one-character separator (keeps empty
parts, as Python does when a separator is given). -/
def split_char (sep : Char) : List Char → List (List Char)
  | [] => [[]]
  | c :: cs =>
    if c == sep then [] :: split_char sep cs
    else
      match split_char sep cs with
      | h :: t => (c :: h) :: t
      | [] => [[c]]

/-- Python `str.lower()` (ASCII). -/
def py_lower (s : String) : String := String.mk (s.data.map Char.toLower)

/-- Python `str.strip()`. -/
def py_strip (s : String) : String :=
  String.mk (((s.data.dropWhile Char.isWhitespace).reverse.dropWhile
    Char.isWhitespace).reverse)

/-- Substring test: Python's `in` on strings. -/
def contains_substr (s pat : String) : Bool := contains_list pat.data s.data

/-- Character class of the placeholder regex `[a-z_]` under
`re.IGNORECASE` (ASCII letters and underscore). -/
def placeholder_char (c : Char) : Bool := c.isLower || c.isUpper || c = '_'

/-- `StrategistAgent._contains_template_placeholders`
(strategist_agent.py:352-365).  The four patterns collapse to two:
`\{query\}` and `\{context\}` are instances of `\{[a-z_]+\}` (with
IGNORECASE: a non-empty all-letter/underscore body between braces), and
`\{.*_.*\}` matches when some brace pair encloses an underscore with no
newline in between (`.` does not match a newline). -/
def contains_template_placeholders (text : String) : Bool :=
  let cs := text.data
  let n := cs.length
  (List.range n).any (fun i =>
    (List.range n).any (fun j =>
      decide (i < j) && (cs.getD i ' ' == '{') && (cs.getD j ' ' == '}') &&
      (let body := (cs.drop (i + 1)).take (j - i - 1)
       (!body.isEmpty && body.all placeholder_char) ||
       (body.contains '_' && !body.contains '\n'))))

/-- The empty-context-claim test of strategist_agent.py:208/230. -/
def claims_empty_context (t : String) : Bool :=
  let low := py_lower t
  contains_substr low "context does not contain" ||
  contains_substr low "context is empty" ||
  contains_substr low "no context available"

/-- `StrategistAgent._generate_architecture_answer`
(strategist_agent.py:377-414): a fixed answer text. -/
def generate_architecture_answer (_query _context : String) : String :=
  "Based on the retrieved course materials, here's what was covered in yesterday's lesson:\n\n**1. Pipelining and Data Hazards**\n\nThe lesson focused on pipelining in computer architecture, specifically addressing data hazards that occur when instructions depend on results from previous instructions.\n\nA detailed table was presented showing:\n- For r-type instructions: source operands needed in EX stage, values produced in EX, forwarding from ME or WB\n- For lw (load word): source operands needed in EX(rs1), values produced in ME, forwarding from WB\n- For sw (store word): source operands needed in EX(rs1) and ME(rs2)\n- For beq (branch): source operands needed in ID stage for both rs1 and rs2\n\n**2. Forwarding Mechanisms**\n\nThree main forwarding paths were explained:\n1. WB → ID: Forwarding through the register file\n2. ME or WB → EX: Standard forwarding for ALU operations\n3. ME or WB → ID: Special forwarding for branch decisions\n\nThese paths help resolve data hazards by bypassing results directly to where they're needed.\n\n**3. Pipeline Execution Diagrams**\n\nThe lesson included pipeline diagrams showing:\n- Instructions moving through stages (IF, ID, EX, ME, WB) over clock cycles\n- How hazards are detected and marked (shown with 'X' marks in the diagrams)\n- Examples with specific instructions like \"add x7, x5, x6\" demonstrating forwarding logic\n\n**4. Additional Topics**\n\n- Branch offset ranges: [-2^12, +2^12-1] = [-4096, +4095] bytes\n- Function implementation examples, including a square function using loops\n- Practical examples of instruction sequences and their pipeline behavior\n\nThis material appears to be from a computer architecture course focusing on RISC-V pipeline implementation and optimization."

/-- `StrategistAgent._generate_generic_answer` (strategist_agent.py:416-434):
extract up to 5 salient lines from the context (non-blank, not a source
header, longer than 20 characters) and wrap them around the query. -/
def generate_generic_answer (query context : String) : String :=
  let lines := (split_char '\n' context.data).map String.mk
  let key_points :=
    ((lines.filter (fun l =>
        py_strip l ≠ "" && !starts_list "[Source".data l.data &&
          decide (l.length > 20))).map
      (fun l => String.mk ((py_strip l).data.take 200))).take 5
  "Based on the retrieved information:\n\n" ++
    String.intercalate "\n" (key_points.map (fun point => "- " ++ point)) ++
    "\n\nThis information was retrieved from the course materials to answer your query: \"" ++
    query ++ "\""

/-- `StrategistAgent._generate_proper_answer` (strategist_agent.py:367-375). -/
def generate_proper_answer (query context : String) : String :=
  if contains_substr (py_lower context) "pipelining" || contains_substr (py_lower context) "hazard" then
    generate_architecture_answer query context
  else
    generate_generic_answer query context

/-- `StrategistAgent._generate_proper_cot` (strategist_agent.py:436-468). -/
def generate_proper_cot (_query context : String) : List ChainOfThought :=
  if contains_substr (py_lower context) "pipelining" || contains_substr (py_lower context) "hazard" then
    [⟨1, "Analyzing the retrieved context about pipelining and data hazards", 8/10⟩,
     ⟨2, "Identifying key concepts: forwarding paths, pipeline stages, and hazard detection", 75/100⟩,
     ⟨3, "Synthesizing the information to provide a comprehensive overview", 7/10⟩]
  else
    [⟨1, "Reviewing the retrieved context for relevant information", 7/10⟩,
     ⟨2, "Organizing the information to answer the query", 65/100⟩]

/-- `StrategistAgent._format_context` (strategist_agent.py:323-350).
The relevance score is rendered with `toString` in place of the source's
two-decimal float formatting (presentation only). -/
def format_context (retrieval_results : List RetrievalResult) : String :=
  if retrieval_results = [] then "No context available."
  else
    let context_parts :=
      ((retrieval_results.take 5).enum.filterMap (fun p =>
        let content := if p.2.content ≠ "" then p.2.content else p.2.text
        if content = "" then none
        else some ("[Source " ++ toString (p.1 + 1) ++ "] (Relevance: " ++
          toString p.2.score ++ ")\n" ++ content ++ "\n")))
    if context_parts = [] then "Context retrieval failed - no readable content found."
    else String.intercalate "\n" context_parts

/-- A raw chain-of-thought entry of the parsed JSON (each field read with
a `.get(…)` default at strategist_agent.py:212-219). -/
structure RawStep where
  step : Option Nat
  thought : Option String
  confidence : Option ℚ
  deriving Repr, DecidableEq

/-- The CoT list built from the parsed JSON (strategist_agent.py:212-219):
`step.get("step", i+1)`, `step.get("thought", "")`,
`float(step.get("confidence", 0.7))`. -/
def build_cot (raw : List RawStep) : List ChainOfThought :=
  raw.enum.map (fun p =>
    ⟨p.2.step.getD (p.1 + 1), p.2.thought.getD "", p.2.confidence.getD (7/10)⟩)

/-- Outcome of the Strategist's generation-and-parse pipeline
(strategist_agent.py:175-248): the chain call succeeded and a JSON object
was recovered (directly or embedded in prose), the chain call succeeded
but no JSON could be recovered (the `except` at line 244), or the chain
call itself raised (the outer `except` at line 307). -/
inductive StrategistResponse where
  | parsed (draft_content : String) (raw_cot : List RawStep)
  | parse_failed
  | llm_failed (msg : String)
  deriving Repr, DecidableEq

/-- The draft-construction tail of `StrategistAgent.__call__`
(strategist_agent.py:250-286): the final validity check (line 251,
`not draft_content or _contains_template_placeholders(...)` regenerates
both content and CoT), then the `DraftContent` record and status update. -/
def strategist_finalize (st : WorkflowState) (draft_content : String)
    (chain_of_thought : List ChainOfThought) (context_str now : String) : WorkflowState :=
  if draft_content = "" || contains_template_placeholders draft_content then
    { st with
      draft := some ⟨"d" ++ toString st.current_round,
        generate_proper_answer st.query context_str,
        generate_proper_cot st.query context_str, now⟩
      workflow_status := "debating" }
  else
    { st with
      draft := some ⟨"d" ++ toString st.current_round, draft_content, chain_of_thought, now⟩
      workflow_status := "debating" }

/-- `StrategistAgent.__call__` (strategist_agent.py:141-321).  The round
counter is incremented (line 156) before the chain call, so it is
incremented on every path, including the exception path.  On the parsed
path the content is replaced by the local fallback when it contains
template placeholders or claims the context was empty
(lines 204-210/227-232). -/
def strategist_call (state : WorkflowState) (resp : StrategistResponse)
    (now : String) : WorkflowState :=
  let st := { state with current_round := state.current_round + 1 }
  let context_str := format_context st.retrieval_results
  match resp with
  | .llm_failed msg =>
    { st with
      error_messages := st.error_messages ++ ["Strategist agent error: " ++ msg]
      workflow_status := "failed" }
  | .parse_failed =>
    strategist_finalize st (generate_proper_answer st.query context_str)
      (generate_proper_cot st.query context_str) context_str now
  | .parsed parsed_content raw_cot =>
    let draft_content :=
      if contains_template_placeholders parsed_content then
        generate_proper_answer st.query context_str
      else if claims_empty_context parsed_content then
        generate_proper_answer st.query context_str
      else parsed_content
    strategist_finalize st draft_content (build_cot raw_cot) context_str now

/-! ## Loop driver

The LangGraph cycle strategist → critic → moderator → (strategist | reporter)
(workflow.py:63-93), projected onto the round counter and the decision.
The strategist increments the round (strategist_agent.py:156); the
moderator's decision for the round is `apply_decision_rules` applied to
the proposal and the issue tally of that round (oracles `propose` and
`critics` give, per round, the model-proposed decision and the critic's
issue list).  `fuel` bounds the recursion; the termination theorem shows
`max_rounds` fuel suffices. -/
def run_debate (propose : Nat → String) (critics : Nat → List Critique)
    (max_rounds : Nat) : Nat → Nat → Option (Nat × String)
  | 0, _ => none
  | fuel + 1, round =>
    let r := round + 1
    let dec := apply_decision_rules (propose r) (analyze_severity (critics r)) r max_rounds
    if dec = "iterate" then run_debate propose critics max_rounds fuel r
    else some (r, dec)

lemma strategist_finalize_round (st : WorkflowState) (dc : String)
    (cot : List ChainOfThought) (ctx now : String) :
    (strategist_finalize st dc cot ctx now).current_round = st.current_round := by
  unfold strategist_finalize
  split <;> rfl

lemma apply_decision_rules_at_max (d : String) (counts : SeverityCounts)
    (round maxr : Nat) (h : maxr ≤ round) :
    apply_decision_rules d counts round maxr = "abort_deadlock" := by
  unfold apply_decision_rules
  rw [if_pos h]

lemma run_debate_terminates (propose : Nat → String) (critics : Nat → List Critique)
    (maxr : Nat) :
    ∀ fuel round, 1 ≤ fuel → maxr ≤ round + fuel →
      ∃ r dec, run_debate propose critics maxr fuel round = some (r, dec) ∧
        r ≤ max (round + 1) maxr ∧ dec ≠ "iterate" := by
  intro fuel
  induction fuel with
  | zero => intro round h1; omega
  | succ f ih =>
    intro round _ hle
    by_cases hdec : apply_decision_rules (propose (round + 1))
        (analyze_severity (critics (round + 1))) (round + 1) maxr = "iterate"
    · have hlt : round + 1 < maxr := by
        by_contra hge
        have := apply_decision_rules_at_max (propose (round + 1))
          (analyze_severity (critics (round + 1))) (round + 1) maxr (by omega)
        rw [this] at hdec
        exact absurd hdec (by decide)
      have hf : 1 ≤ f := by omega
      rcases ih (round + 1) hf (by omega) with ⟨r, dec, hrun, hr, hdec2⟩
      refine ⟨r, dec, ?_, ?_, hdec2⟩
      · unfold run_debate
        rw [if_pos hdec]
        exact hrun
      · have : max (round + 1 + 1) maxr = maxr := by omega
        omega
    · refine ⟨round + 1, _, ?_, by omega, hdec⟩
      unfold run_debate
      rw [if_neg hdec]

/-- Claim C2: the round counter increases by exactly 1 on each Draft
Generator invocation (on every path of `StrategistAgent.__call__`);
whenever the Decision Controller runs with round ≥ max_rounds its
decision is `abort_deadlock` (rule 1, a non-`iterate` decision); hence
the loop, started at round 0 with `max_rounds` fuel, reaches a terminal
(non-`iterate`) decision at a round ≤ `max_rounds`. -/
theorem debate_loop_round_increment_and_termination
    (propose : Nat → String) (critics : Nat → List Critique)
    (maxr : Nat) (h : 1 ≤ maxr) :
    (∀ (s : WorkflowState) (resp : StrategistResponse) (now : String),
      (strategist_call s resp now).current_round = s.current_round + 1) ∧
    (∀ (d : String) (critiques : List Critique) (round : Nat), maxr ≤ round →
      apply_decision_rules d (analyze_severity critiques) round maxr = "abort_deadlock") ∧
    (∃ r dec, run_debate propose critics maxr maxr 0 = some (r, dec) ∧
      r ≤ maxr ∧ dec ≠ "iterate") := by
  refine ⟨?_, ?_, ?_⟩
  · intro s resp now
    cases resp with
    | llm_failed msg => rfl
    | parse_failed =>
      simp only [strategist_call]
      rw [strategist_finalize_round]
    | parsed pc raw =>
      simp only [strategist_call]
      rw [strategist_finalize_round]
  · intro d critiques round hge
    exact apply_decision_rules_at_max d (analyze_severity critiques) round maxr hge
  · rcases run_debate_terminates propose critics maxr maxr 0 h (by omega)
      with ⟨r, dec, hrun, hr, hdec⟩
    exact ⟨r, dec, hrun, by omega, hdec⟩

/-- Witness for C2: `max_rounds = 2`, a proposal that always says
`iterate`, a critic that always reports one critical issue; the loop
terminates at round 2 with a non-`iterate` decision. -/
theorem debate_loop_round_increment_and_termination_witness :
    (1 ≤ 2) ∧
    ((∀ (s : WorkflowState) (resp : StrategistResponse) (now : String),
      (strategist_call s resp now).current_round = s.current_round + 1) ∧
    (∀ (d : String) (critiques : List Critique) (round : Nat), 2 ≤ round →
      apply_decision_rules d (analyze_severity critiques) round 2 = "abort_deadlock") ∧
    (∃ r dec, run_debate (fun _ => "iterate")
        (fun _ => [Critique.mk "logic_flaw" (some "critical") "bad" none none]) 2 2 0 =
        some (r, dec) ∧ r ≤ 2 ∧ dec ≠ "iterate")) :=
  ⟨by decide,
    debate_loop_round_increment_and_termination (fun _ => "iterate")
      (fun _ => [Critique.mk "logic_flaw" (some "critical") "bad" none none]) 2 (by decide)⟩

/-- Counterexample to claim C3: with `max_rounds = 1` and a critic
returning zero issues, the Decision Controller on round 1 (round counter 1
after the Strategist's increment) applies Rule 1 first
(`current_round >= max_rounds`) and returns `abort_deadlock`, not
`converged` — even when the model itself proposed `converged`. -/
theorem round_one_of_one_zero_issues_aborts :
    apply_decision_rules "converged" (analyze_severity []) 1 1 = "abort_deadlock" ∧
    "abort_deadlock" ≠ "converged" := by
  constructor
  · decide
  · decide

/-- Claim C3 as amended: with a Critique Engine returning zero issues, the
decision is `converged` only on rounds strictly below `max_rounds`
(override rule 4 fires); at round ≥ `max_rounds` — in particular on round
1 when `max_rounds = 1` — rule 1 takes precedence and forces
`abort_deadlock`, whatever the model proposed. -/
theorem decision_rules_zero_issues (decision : String) (round maxr : Nat) :
    apply_decision_rules decision (analyze_severity []) round maxr =
      if round ≥ maxr then "abort_deadlock" else "converged" := by
  by_cases h : round ≥ maxr
  · rw [if_pos h]
    exact apply_decision_rules_at_max decision (analyze_severity []) round maxr h
  · rw [if_neg h]
    unfold apply_decision_rules
    rw [if_neg h]
    have hcounts : analyze_severity [] = ⟨0, 0, 0, 0⟩ := rfl
    rw [hcounts]
    simp [critical_severity_threshold]

/-- Claim C8: a Draft Generator response whose parsed answer text contains
an unresolved template placeholder token is never stored unmodified: the
draft content recorded in the workflow state is the deterministic local
fallback computed from the query and the formatted retrieved passages. -/
theorem strategist_replaces_placeholder_draft (s : WorkflowState)
    (parsed_content : String) (raw_cot : List RawStep) (now : String)
    (h : contains_template_placeholders parsed_content = true) :
    ((strategist_call s (.parsed parsed_content raw_cot) now).draft).map DraftContent.content
      = some (generate_proper_answer s.query (format_context s.retrieval_results)) := by
  simp only [strategist_call, h, if_pos]
  unfold strategist_finalize
  split <;> simp

/-- Witness for C8: the literal degenerate response `{query}`. -/
theorem strategist_replaces_placeholder_draft_witness :
    contains_template_placeholders "{query}" = true ∧
    ((strategist_call
        ⟨"What is backpropagation?", "c1", 0, 3,
          [⟨"Backpropagation computes gradients layer by layer.", "", 9/10, "doc1"⟩],
          9/10, "initial", none, [], none, none, 0, [], "retrieving"⟩
        (.parsed "{query}" []) "t").draft).map DraftContent.content
      = some (generate_proper_answer "What is backpropagation?"
          (format_context
            [⟨"Backpropagation computes gradients layer by layer.", "", 9/10, "doc1"⟩])) :=
  ⟨by decide,
    strategist_replaces_placeholder_draft
      ⟨"What is backpropagation?", "c1", 0, 3,
        [⟨"Backpropagation computes gradients layer by layer.", "", 9/10, "doc1"⟩],
        9/10, "initial", none, [], none, none, 0, [], "retrieving"⟩
      "{query}" [] "t" (by decide)⟩

/-! ## Retrieval Orchestration (`agents/retrieve_agent.py`) -/

/-- A source entry of a RAG-service result dict (`rag_result['sources']`),
with the fields the retrieve agent reads. -/
structure RagSource where
  content : String
  score : ℚ
  metadata_source : String
  deriving Repr, DecidableEq

/-- A RAG-service result as the retrieve agent consumes it. -/
structure RagResult where
  success : Bool
  answer : Option String
  sources : List RagSource
  deriving Repr, DecidableEq

/-- `len(set(new.split()) & set(existing.split()))`: the number of
distinct tokens of `a` that also occur in `b`. -/
def shared_token_count (a b : String) : Nat :=
  ((py_split a).dedup.filter (fun t => t ∈ py_split b)).length

/-- The duplicate test of `RetrieveAgent._merge_rag_results`
(retrieve_agent.py:430): distinct shared tokens exceed 70% of the new
passage's token count. -/
def token_overlap_exceeds (new_content existing_content : String) : Bool :=
  decide ((shared_token_count new_content existing_content : ℚ) >
    ((py_split new_content).length : ℚ) * (7/10))

/-- Loop body of `RetrieveAgent._merge_rag_results` (lines 423-435): a new
source is appended unless it overlaps >70% with some already-merged one. -/
def merge_step (merged : List RagSource) (new_source : RagSource) : List RagSource :=
  if merged.any (fun existing => token_overlap_exceeds new_source.content existing.content)
  then merged
  else merged ++ [new_source]

/-- The merged source list of `RetrieveAgent._merge_rag_results`:
start from a copy of the initial sources, then run the loop body over the
alternative sources. -/
def dedup_merge_sources (initial_sources alternative_sources : List RagSource) :
    List RagSource :=
  alternative_sources.foldl merge_step initial_sources

/-- `RetrieveAgent._merge_rag_results` (retrieve_agent.py:411-442). -/
def merge_rag_results (initial alternative : RagResult) : RagResult :=
  { success := true
    answer := match alternative.answer with
      | some a => some a
      | none => initial.answer
    sources := dedup_merge_sources initial.sources alternative.sources }

/-- Selection loop of `RetrieveAgent._parallel_retrieval_with_scoring`
(retrieve_agent.py:379-409), carrying `best_result`/`best_query_idx` (as
one optional pair) and `best_score`.  An entry `none` models an
alternative whose retrieval task raised (excluded, not fatal); `score`
is the quality-assessment oracle applied to a successful result. -/
def find_best_aux (score : RagResult → ℚ) :
    List (Option RagResult) → Nat → Option (RagResult × Nat) → ℚ → Option (RagResult × Nat)
  | [], _, best, _ => best
  | r :: rest, i, best, best_score =>
    match r with
    | some result =>
      if result.success then
        if score result > best_score then
          find_best_aux score rest (i + 1) (some (result, i)) (score result)
        else
          find_best_aux score rest (i + 1) best best_score
      else
        find_best_aux score rest (i + 1) best best_score
    | none => find_best_aux score rest (i + 1) best best_score

/-- `RetrieveAgent._parallel_retrieval_with_scoring`: best alternative and
its query index, starting from `best_result = None`, `best_score = 0.0`. -/
def parallel_retrieval_with_scoring (alternatives : List (Option RagResult))
    (score : RagResult → ℚ) : Option (RagResult × Nat) :=
  find_best_aux score alternatives 0 none 0

/-- `self.min_quality_threshold = 0.7` (retrieve_agent.py:49). -/
def min_quality_threshold : ℚ := 7/10

/-- Stage 3 of `RetrieveAgent.__call__` (retrieve_agent.py:166-201): when
the initial quality is below threshold and reframed queries were produced
(`alternatives` holds one entry per reframed query), merge the best
alternative, labelling the strategy `refined_query_{k}` by its index; with
no successful alternative, keep the initial results under `initial_only`.
(The source recovers the index from the query string attached to the best
result, which equals the loop index carried here when the reframed queries
are distinct.) -/
def retrieve_stage3 (initial : RagResult) (initial_score : ℚ)
    (alternatives : List (Option RagResult)) (score : RagResult → ℚ) :
    String × RagResult :=
  if initial_score < min_quality_threshold then
    if alternatives ≠ [] then
      match parallel_retrieval_with_scoring alternatives score with
      | some (best, idx) =>
        ("refined_query_" ++ toString (idx + 1), merge_rag_results initial best)
      | none => ("initial_only", initial)
    else ("initial", initial)
  else ("initial", initial)

/-- Failure path of `RetrieveAgent.__call__` (retrieve_agent.py:153-157):
`perform_rag_retrieval` returned `None`, so an error message is appended,
the workflow is marked failed and the node returns. -/
def retrieve_call_failure (state : WorkflowState) : WorkflowState :=
  { state with
    error_messages := state.error_messages ++ ["Initial RAG retrieval failed"]
    workflow_status := "failed" }

/-! ## Lemmas about the best-alternative selection -/

lemma find_best_aux_nil (score : RagResult → ℚ) (i : Nat)
    (best : Option (RagResult × Nat)) (s : ℚ) :
    find_best_aux score [] i best s = best := rfl

lemma find_best_aux_cons_none (score : RagResult → ℚ) (t : List (Option RagResult))
    (i : Nat) (best : Option (RagResult × Nat)) (s : ℚ) :
    find_best_aux score (none :: t) i best s = find_best_aux score t (i + 1) best s := rfl

lemma find_best_aux_cons_some (score : RagResult → ℚ) (result : RagResult)
    (t : List (Option RagResult)) (i : Nat) (best : Option (RagResult × Nat)) (s : ℚ) :
    find_best_aux score (some result :: t) i best s =
      if result.success = true then
        (if score result > s then
          find_best_aux score t (i + 1) (some (result, i)) (score result)
        else find_best_aux score t (i + 1) best s)
      else find_best_aux score t (i + 1) best s := rfl

lemma find_best_aux_isSome (score : RagResult → ℚ) (l : List (Option RagResult)) :
    ∀ i p s, (find_best_aux score l i (some p) s).isSome = true := by
  induction l with
  | nil => intro i p s; rfl
  | cons a t ih =>
    intro i p s
    cases a with
    | none =>
      rw [find_best_aux_cons_none]
      exact ih (i + 1) p s
    | some result =>
      rw [find_best_aux_cons_some]
      by_cases hs : result.success = true
      · rw [if_pos hs]
        by_cases hgt : score result > s
        · rw [if_pos hgt]
          exact ih (i + 1) _ _
        · rw [if_neg hgt]
          exact ih (i + 1) p s
      · rw [if_neg hs]
        exact ih (i + 1) p s

lemma find_best_aux_chosen (score : RagResult → ℚ) (l : List (Option RagResult)) :
    ∀ (i : Nat) (best : Option (RagResult × Nat)) (best_score : ℚ),
      0 ≤ best_score →
      (∀ p, best = some p → 0 < score p.1 ∧ p.1.success = true) →
      ∀ q, find_best_aux score l i best best_score = some q →
        0 < score q.1 ∧ q.1.success = true := by
  induction l with
  | nil =>
    intro i best best_score _ hbest q hq
    exact hbest q hq
  | cons a t ih =>
    intro i best best_score hnn hbest q hq
    cases a with
    | none =>
      rw [find_best_aux_cons_none] at hq
      exact ih (i + 1) best best_score hnn hbest q hq
    | some result =>
      rw [find_best_aux_cons_some] at hq
      by_cases hs : result.success = true
      · rw [if_pos hs] at hq
        by_cases hgt : score result > best_score
        · rw [if_pos hgt] at hq
          refine ih (i + 1) (some (result, i)) (score result) (by linarith) ?_ q hq
          intro p hp
          cases Option.some.inj hp
          exact ⟨by linarith, hs⟩
        · rw [if_neg hgt] at hq
          exact ih (i + 1) best best_score hnn hbest q hq
      · rw [if_neg hs] at hq
        exact ih (i + 1) best best_score hnn hbest q hq

lemma find_best_aux_none_iff (score : RagResult → ℚ) (l : List (Option RagResult)) :
    ∀ (i : Nat) (best_score : ℚ),
      (find_best_aux score l i none best_score = none ↔
        ∀ r : RagResult, some r ∈ l → r.success = true → score r ≤ best_score) := by
  induction l with
  | nil =>
    intro i best_score
    simp [find_best_aux_nil]
  | cons a t ih =>
    intro i best_score
    cases a with
    | none =>
      rw [find_best_aux_cons_none, ih (i + 1) best_score]
      constructor
      · intro h r hr hs
        rcases List.mem_cons.mp hr with heq | hmem
        · exact absurd heq (by simp)
        · exact h r hmem hs
      · intro h r hr hs
        exact h r (List.mem_cons_of_mem _ hr) hs
    | some result =>
      rw [find_best_aux_cons_some]
      by_cases hs : result.success = true
      · rw [if_pos hs]
        by_cases hgt : score result > best_score
        · rw [if_pos hgt]
          constructor
          · intro h
            have := find_best_aux_isSome score t (i + 1) (result, i) (score result)
            rw [h] at this
            cases this
          · intro h
            have := h result (List.mem_cons_self _ _) hs
            linarith
        · rw [if_neg hgt, ih (i + 1) best_score]
          constructor
          · intro h r hr hsr
            rcases List.mem_cons.mp hr with heq | hmem
            · cases Option.some.inj heq
              linarith
            · exact h r hmem hsr
          · intro h r hr hsr
            exact h r (List.mem_cons_of_mem _ hr) hsr
      · rw [if_neg hs, ih (i + 1) best_score]
        constructor
        · intro h r hr hsr
          rcases List.mem_cons.mp hr with heq | hmem
          · cases Option.some.inj heq
            exact absurd hsr hs
          · exact h r hmem hsr
        · intro h r hr hsr
          exact h r (List.mem_cons_of_mem _ hr) hsr

/-! ## Lemmas about the deduplicating merge -/

lemma merge_step_mem (merged : List RagSource) (s x : RagSource) (h : x ∈ merged) :
    x ∈ merge_step merged s := by
  unfold merge_step
  split
  · exact h
  · exact List.mem_append_left _ h

lemma dedup_merge_mem_acc (alt : List RagSource) :
    ∀ (acc : List RagSource) (x : RagSource), x ∈ acc → x ∈ alt.foldl merge_step acc := by
  induction alt with
  | nil => intro acc x h; exact h
  | cons s t ih =>
    intro acc x h
    exact ih (merge_step acc s) x (merge_step_mem acc s x h)

lemma dedup_merge_mem_src (alt : List RagSource) :
    ∀ (acc : List RagSource) (x : RagSource), x ∈ alt.foldl merge_step acc →
      x ∈ acc ∨ (x ∈ alt ∧
        ∀ e ∈ acc, token_overlap_exceeds x.content e.content = false) := by
  induction alt with
  | nil => intro acc x h; exact Or.inl h
  | cons s t ih =>
    intro acc x h
    rcases ih (merge_step acc s) x h with hacc | ⟨hmem, hno⟩
    · unfold merge_step at hacc
      by_cases hany : acc.any
          (fun existing => token_overlap_exceeds s.content existing.content) = true
      · rw [if_pos hany] at hacc
        exact Or.inl hacc
      · rw [if_neg hany] at hacc
        rcases List.mem_append.mp hacc with hl | hr
        · exact Or.inl hl
        · have hxs : x = s := by simpa using hr
          subst hxs
          refine Or.inr ⟨List.mem_cons_self _ _, ?_⟩
          intro e he
          by_contra hne
          apply hany
          rw [List.any_eq_true]
          exact ⟨e, he, by simpa using hne⟩
    · refine Or.inr ⟨List.mem_cons_of_mem _ hmem, ?_⟩
      intro e he
      exact hno e (merge_step_mem acc s e he)

/-! ## Claim theorems: Retrieval Orchestration -/

/-- Counterexample to claim C4: with the initial retrieval scoring 0.5
(below the 0.7 reframing threshold) and the single alternative scoring
0.3 — strictly below the initial score — the code still selects the
alternative (it is compared against a running best initialized to 0.0,
not against the initial score), labels the strategy `refined_query_1`
instead of `initial_only`, and returns a merged result different from the
initial one. -/
theorem low_scoring_alternative_still_merged :
    (3/10 : ℚ) < 1/2 ∧ (1/2 : ℚ) < min_quality_threshold ∧
    retrieve_stage3 ⟨true, some "ia", [⟨"alpha beta gamma", 1, "s1"⟩]⟩ (1/2)
        [some ⟨true, some "aa", [⟨"delta epsilon zeta", 0, "s2"⟩]⟩] (fun _ => 3/10) =
      ("refined_query_1",
        ⟨true, some "aa",
          [⟨"alpha beta gamma", 1, "s1"⟩, ⟨"delta epsilon zeta", 0, "s2"⟩]⟩) ∧
    ("refined_query_1" : String) ≠ "initial_only" ∧
    ([⟨"alpha beta gamma", 1, "s1"⟩, ⟨"delta epsilon zeta", 0, "s2"⟩] :
        List RagSource).length ≠
      ([⟨"alpha beta gamma", 1, "s1"⟩] : List RagSource).length := by
  refine ⟨by norm_num, by norm_num [min_quality_threshold], ?_, by decide, by decide⟩
  have hfind : parallel_retrieval_with_scoring
      [some ⟨true, some "aa", [⟨"delta epsilon zeta", 0, "s2"⟩]⟩]
      (fun _ => (3/10 : ℚ)) =
      some (⟨true, some "aa", [⟨"delta epsilon zeta", 0, "s2"⟩]⟩, 0) := by
    unfold parallel_retrieval_with_scoring
    rw [find_best_aux_cons_some]
    norm_num [find_best_aux_nil]
  have hov : token_overlap_exceeds "delta epsilon zeta" "alpha beta gamma" = false := by
    unfold token_overlap_exceeds
    rw [show shared_token_count "delta epsilon zeta" "alpha beta gamma" = 0 from by decide]
    rw [show (py_split "delta epsilon zeta").length = 3 from by decide]
    simp only [Nat.cast_zero, decide_eq_false_iff_not, not_lt]
    positivity
  unfold retrieve_stage3
  rw [if_pos (show (1/2 : ℚ) < min_quality_threshold by norm_num [min_quality_threshold]),
    if_pos (show ([some (⟨true, some "aa", [⟨"delta epsilon zeta", 0, "s2"⟩]⟩ : RagResult)] :
      List (Option RagResult)) ≠ [] by decide), hfind]
  unfold merge_rag_results dedup_merge_sources
  simp [merge_step, hov]
  decide

/-- Claim C4 as amended: the alternative-selection loop compares each
successful alternative's quality score against a running best initialized
to 0.0, not against the initial retrieval's score.  Hence (under the
reframing preconditions) an alternative is selected and merged exactly
when some successful alternative scores strictly above 0 — even when that
score is below the initial score — and the strategy is `initial_only`,
with the initial results kept unmodified, exactly when every successful
alternative scores ≤ 0 (in particular when all alternative calls
failed). -/
theorem alternative_selection_ignores_initial_score (initial : RagResult)
    (initial_score : ℚ) (alternatives : List (Option RagResult))
    (score : RagResult → ℚ) (h1 : initial_score < min_quality_threshold)
    (h2 : alternatives ≠ []) :
    (parallel_retrieval_with_scoring alternatives score = none ↔
      ∀ r : RagResult, some r ∈ alternatives → r.success = true → score r ≤ 0) ∧
    (parallel_retrieval_with_scoring alternatives score = none →
      retrieve_stage3 initial initial_score alternatives score = ("initial_only", initial)) ∧
    (∀ b idx, parallel_retrieval_with_scoring alternatives score = some (b, idx) →
      0 < score b ∧ b.success = true ∧
      retrieve_stage3 initial initial_score alternatives score =
        ("refined_query_" ++ toString (idx + 1), merge_rag_results initial b)) := by
  refine ⟨find_best_aux_none_iff score alternatives 0 0, ?_, ?_⟩
  · intro hnone
    unfold retrieve_stage3
    rw [if_pos h1, if_pos h2, hnone]
  · intro b idx hsome
    have hchosen := find_best_aux_chosen score alternatives 0 none 0 le_rfl
      (by intro p hp; cases hp) (b, idx) hsome
    refine ⟨hchosen.1, hchosen.2, ?_⟩
    unfold retrieve_stage3
    rw [if_pos h1, if_pos h2, hsome]

/-- Witness for the amended C4: one failed alternative task and one
successful alternative scoring 0.3. -/
theorem alternative_selection_ignores_initial_score_witness :
    ((1/2 : ℚ) < min_quality_threshold) ∧
    ([none, some ⟨true, some "aa", [⟨"delta epsilon zeta", 3/10, "s2"⟩]⟩] :
        List (Option RagResult)) ≠ [] ∧
    (∀ b idx,
      parallel_retrieval_with_scoring
        [none, some ⟨true, some "aa", [⟨"delta epsilon zeta", 3/10, "s2"⟩]⟩]
        (fun _ => 3/10) = some (b, idx) →
      0 < (fun (_ : RagResult) => (3/10 : ℚ)) b ∧ b.success = true ∧
      retrieve_stage3 ⟨true, some "ia", [⟨"alpha beta gamma", 1/2, "s1"⟩]⟩ (1/2)
          [none, some ⟨true, some "aa", [⟨"delta epsilon zeta", 3/10, "s2"⟩]⟩]
          (fun _ => 3/10) =
        ("refined_query_" ++ toString (idx + 1),
          merge_rag_results ⟨true, some "ia", [⟨"alpha beta gamma", 1/2, "s1"⟩]⟩ b)) :=
  ⟨by norm_num [min_quality_threshold], by decide,
    (alternative_selection_ignores_initial_score
      ⟨true, some "ia", [⟨"alpha beta gamma", 1/2, "s1"⟩]⟩ (1/2)
      [none, some ⟨true, some "aa", [⟨"delta epsilon zeta", 3/10, "s2"⟩]⟩]
      (fun _ => 3/10) (by norm_num [min_quality_threshold]) (by decide)).2.2⟩

/-- Claim C7: in the retrieval merge, all initial passages are kept; an
alternative passage whose token overlap with an initial passage exceeds
70% is never (re-)added — it appears in the merged list only if it was
itself an initial passage; and two passages sharing exactly 0 tokens are
both kept. -/
theorem merge_deduplication (init alt : List RagSource) (i a : RagSource)
    (hi : i ∈ init) :
    i ∈ dedup_merge_sources init alt ∧
    (token_overlap_exceeds a.content i.content = true →
      a ∈ dedup_merge_sources init alt → a ∈ init) ∧
    (shared_token_count a.content i.content = 0 →
      dedup_merge_sources [i] [a] = [i, a]) := by
  refine ⟨dedup_merge_mem_acc alt init i hi, ?_, ?_⟩
  · intro hov hmem
    rcases dedup_merge_mem_src alt init a hmem with hin | ⟨_, hno⟩
    · exact hin
    · have := hno i hi
      rw [hov] at this
      cases this
  · intro hshared
    have hov : token_overlap_exceeds a.content i.content = false := by
      unfold token_overlap_exceeds
      rw [hshared]
      simp only [Nat.cast_zero, decide_eq_false_iff_not, not_lt]
      positivity
    unfold dedup_merge_sources
    simp [merge_step, hov]

/-- Witness for C7: an alternative passage repeating more than 70% of an
initial passage's tokens, and a disjoint pair. -/
theorem merge_deduplication_witness :
    (⟨"alpha beta gamma delta", 1, "s1"⟩ : RagSource) ∈
      [(⟨"alpha beta gamma delta", 1, "s1"⟩ : RagSource)] ∧
    (token_overlap_exceeds "alpha beta gamma" "alpha beta gamma delta" = true →
      (⟨"alpha beta gamma", 0, "s2"⟩ : RagSource) ∈
        dedup_merge_sources [⟨"alpha beta gamma delta", 1, "s1"⟩]
          [⟨"alpha beta gamma", 0, "s2"⟩] →
      (⟨"alpha beta gamma", 0, "s2"⟩ : RagSource) ∈
        [(⟨"alpha beta gamma delta", 1, "s1"⟩ : RagSource)]) ∧
    (shared_token_count "alpha beta gamma" "alpha beta gamma delta" = 0 →
      dedup_merge_sources [⟨"alpha beta gamma delta", 1, "s1"⟩]
        [⟨"alpha beta gamma", 0, "s2"⟩] =
        [⟨"alpha beta gamma delta", 1, "s1"⟩, ⟨"alpha beta gamma", 0, "s2"⟩]) ∧
    token_overlap_exceeds "alpha beta gamma" "alpha beta gamma delta" = true ∧
    shared_token_count "epsilon zeta" "alpha beta gamma delta" = 0 :=
  ⟨by simp,
    (merge_deduplication [⟨"alpha beta gamma delta", 1, "s1"⟩]
      [⟨"alpha beta gamma", 0, "s2"⟩] ⟨"alpha beta gamma delta", 1, "s1"⟩
      ⟨"alpha beta gamma", 0, "s2"⟩ (by simp)).2.1,
    (merge_deduplication [⟨"alpha beta gamma delta", 1, "s1"⟩]
      [⟨"alpha beta gamma", 0, "s2"⟩] ⟨"alpha beta gamma delta", 1, "s1"⟩
      ⟨"alpha beta gamma", 0, "s2"⟩ (by simp)).2.2,
    by
      unfold token_overlap_exceeds
      rw [show shared_token_count "alpha beta gamma" "alpha beta gamma delta" = 3 from by decide]
      rw [show (py_split "alpha beta gamma").length = 3 from by decide]
      simp only [decide_eq_true_eq]
      push_cast
      norm_num,
    by decide⟩

/-! ## Critique Engine node (`langgraph_implementation/agents/critic_agent.py`) -/

/-- Outcome of the Critic's three verification chains plus parsing: the
concatenated issue list, or an exception somewhere in the `try` block. -/
inductive CritiqueOutcome where
  | ok (critiques : List Critique)
  | failure (msg : String)
  deriving Repr, DecidableEq

/-- `CriticAgent.__call__` (critic_agent.py:164-269).  On success the
critiques field is overwritten (lines 228-230); on an exception the
`except` branch (lines 255-267) appends the error and marks the workflow
failed — the critiques field is not touched, so it keeps its previous
value. -/
def critic_call (state : WorkflowState) (outcome : CritiqueOutcome) : WorkflowState :=
  match outcome with
  | .ok critiques =>
    { state with critiques := critiques, workflow_status := "debating" }
  | .failure msg =>
    { state with
      error_messages := state.error_messages ++ ["Critic agent error: " ++ msg]
      workflow_status := "failed" }

/-! ## Synthesizer (`agents/reporter_agent.py`) -/

/-- The `source` dict of a context item as `_enhance_with_metadata` reads
it: `source_info.get('document_id', source_info.get('course_id', 'Unknown'))`. -/
structure SourceInfo where
  document_id : Option String
  course_id : Option String
  deriving Repr, DecidableEq

/-- A context item as the Reporter consumes it (`agent_input.context`). -/
structure CtxItem where
  text : String
  content : String
  score : ℚ
  source : SourceInfo
  deriving Repr, DecidableEq

/-- Quality-indicator block (reporter_agent.py:465-469). -/
structure QualityIndicators where
  debate_status : String
  verification_level : String
  context_support : String
  deriving Repr, DecidableEq

/-- The enhanced final answer returned by `_enhance_with_metadata`:
the synthesized sections plus confidence score, sources and quality
indicators. -/
structure EnhancedAnswer where
  sections : List (String × String)
  confidence_score : ℚ
  sources : List String
  quality_indicators : QualityIndicators
  deriving Repr, DecidableEq

/-- One source-attribution entry (reporter_agent.py:451-460); the score
is rendered with `toString` in place of Python string interpolation. -/
def format_source_entry (c : CtxItem) : String :=
  let source_id := c.source.document_id.getD (c.source.course_id.getD "Unknown")
  source_id ++ " (relevance: " ++ toString c.score ++ ")"

/-- `ReporterAgent._enhance_with_metadata` (reporter_agent.py:435-471):
the confidence score is set to the quality score unconditionally, for
every debate status. -/
def enhance_with_metadata (answer : List (String × String)) (context : List CtxItem)
    (quality_score : ℚ) (debate_status : String) : EnhancedAnswer :=
  { sections := answer
    confidence_score := quality_score
    sources := (context.take 5).map format_source_entry
    quality_indicators :=
      { debate_status := debate_status
        verification_level :=
          if quality_score > 8/10 then "high"
          else if quality_score > 1/2 then "medium"
          else "limited"
        context_support :=
          if 3 ≤ context.length then "strong"
          else if 1 ≤ context.length then "moderate"
          else "limited" } }

/-- `ReporterAgent.process` (reporter_agent.py:61-130), after the
status-dependent synthesis step (an LLM call whose structured sections
are taken as the `synthesized` input): the answer is enhanced with
metadata and returned. -/
def reporter_process (debate_status : String) (quality_score : ℚ)
    (synthesized : List (String × String)) (context : List CtxItem) : EnhancedAnswer :=
  enhance_with_metadata synthesized context quality_score debate_status

/-! ## Claim theorems: error paths and synthesis -/

/-- Counterexample to claim C5: after a total failure of the initial
retrieval the retrieve node records the error and marks the workflow
failed, but the workflow's `retrieve → strategist` edge is unconditional,
so the Draft Generator still runs — and (here, on the parse-fallback
path) still produces a draft. -/
theorem retrieval_failure_still_reaches_strategist :
    (retrieve_call_failure
      ⟨"q", "c", 0, 3, [], 0, "initial", none, [], none, none, 0, [], "retrieving"⟩
      ).workflow_status = "failed" ∧
    next_node "retrieve" = some "strategist" ∧
    ((strategist_call
        (retrieve_call_failure
          ⟨"q", "c", 0, 3, [], 0, "initial", none, [], none, none, 0, [], "retrieving"⟩)
        .parse_failed "t").draft).isSome = true := by
  refine ⟨rfl, rfl, ?_⟩
  simp only [strategist_call]
  unfold strategist_finalize
  split <;> rfl

/-- Claim C5 as amended: when the initial retrieval call fails outright,
the retrieve node appends an error message and sets the workflow status
to `failed`, but it does not abort the query: the graph's unconditional
edge still sends every state — the failed one included — to the Draft
Generator, which still stores a draft. -/
theorem retrieval_failure_marks_failed_but_proceeds (s : WorkflowState) (now : String) :
    (retrieve_call_failure s).workflow_status = "failed" ∧
    (retrieve_call_failure s).error_messages =
      s.error_messages ++ ["Initial RAG retrieval failed"] ∧
    next_node "retrieve" = some "strategist" ∧
    ((strategist_call (retrieve_call_failure s) .parse_failed now).draft).isSome = true := by
  refine ⟨rfl, rfl, rfl, ?_⟩
  simp only [strategist_call]
  unfold strategist_finalize
  split <;> rfl

/-- Counterexample to claim C6: on a deadlock termination with raw
quality score 0.9, the Synthesizer's final answer carries confidence 0.9,
which exceeds the claimed 0.7 cap — no cap is applied. -/
theorem deadlock_confidence_not_capped :
    (reporter_process "deadlock" (9/10) [] []).confidence_score = 9/10 ∧
    ¬ ((9/10 : ℚ) ≤ 7/10) :=
  ⟨rfl, by norm_num⟩

/-- Claim C6 as amended: the Synthesizer's confidence score always equals
the quality score it was given — for deadlock and escalation terminations
just as for convergence, no 0.7 cap (or any cap) is applied. -/
theorem reporter_confidence_equals_quality_score (debate_status : String)
    (quality_score : ℚ) (synthesized : List (String × String))
    (context : List CtxItem) :
    (reporter_process debate_status quality_score synthesized context).confidence_score
      = quality_score ∧
    (enhance_with_metadata synthesized context quality_score debate_status).confidence_score
      = quality_score :=
  ⟨rfl, rfl⟩

/-- Claim C9: when the Moderator's proposal step fails, the node records
`abort_deadlock`, appends the error, marks the workflow failed and
returns normally (no exception propagates), and the router then sends the
workflow to the Reporter — the loop terminates. -/
theorem moderator_failure_defaults_abort (s : WorkflowState) (msg detailed : String) :
    (moderator_call s (.failure msg) detailed).moderator_decision = some "abort_deadlock" ∧
    (moderator_call s (.failure msg) detailed).error_messages =
      s.error_messages ++ ["Moderator agent error: " ++ msg] ∧
    (moderator_call s (.failure msg) detailed).workflow_status = "failed" ∧
    route_from_moderator (moderator_call s (.failure msg) detailed) = "reporter" :=
  ⟨rfl, rfl, rfl, rfl⟩

/-- Claim C10: when the Critique Engine raises during a round, the
critiques field is left unchanged (it still holds the previous round's
issue list) while an error message is appended; the unconditional
`critic → moderator` edge still runs the Decision Controller, whose
decision is then computed from that stale issue list. -/
theorem critic_failure_keeps_stale_critiques (s : WorkflowState)
    (msg proposal reasoning feedback detailed : String) (score : ℚ) :
    (critic_call s (.failure msg)).critiques = s.critiques ∧
    (critic_call s (.failure msg)).error_messages =
      s.error_messages ++ ["Critic agent error: " ++ msg] ∧
    next_node "critic" = some "moderator" ∧
    (moderator_call (critic_call s (.failure msg))
        (.ok proposal reasoning feedback score) detailed).moderator_decision =
      some (apply_decision_rules proposal (analyze_severity s.critiques)
        s.current_round s.max_rounds) :=
  ⟨rfl, rfl, rfl, rfl⟩

end Oliver
